import Mathlib

/-!
Verification of the Standard-Solution-Tool sizing and degradation engine
(src/Algorithm.py, src/ui.py) against its specification.

Conventions of the embedding:
* Python floats are modelled as rationals (`ℚ`); the floating-point
  representation itself is not modelled.
* Spreadsheet contents (data/BESS.xlsx, data/Degradation.xlsx are data files
  that ship next to the code, not code) are passed in as explicit values: the
  BESS spec sheet as the key/value list produced by `get_bess_specs_for`, the
  degradation sheet as a list of `DegRow`.  A failed spreadsheet lookup
  (`get_bess_specs_for` raising) is modelled by passing `none`.
* Python exceptions in `get_degradation_curve` are modelled by `Except DegErr`.
-/

/-- Models Python `(s or '').strip().upper()`: drop leading/trailing
whitespace, then uppercase every character. -/
def pyStripUpper (s : String) : String :=
  let cs := s.data
  let cs := cs.dropWhile Char.isWhitespace
  let cs := (cs.reverse.dropWhile Char.isWhitespace).reverse
  String.mk (cs.map Char.toUpper)

/-- Models Python `int()` applied to a float: truncation toward zero. -/
def pyInt (q : ℚ) : ℤ :=
  if q < 0 then ⌈q⌉ else ⌊q⌋

/-- Models Python `round(x, n)` on our rational model of floats: round
`x * 10^n` to the nearest integer and scale back.  (`round` resolves ties
upward where Python's float `round` is ties-to-even; no claim in this
development depends on a tie.) -/
def roundTo (n : ℕ) (x : ℚ) : ℚ :=
  ((round (x * 10 ^ n) : ℤ) : ℚ) / 10 ^ n

/-- A cell of the BESS spec sheet, as seen through Python's
`float(str(v).replace(',', '').strip())` coercion: either a value that the
coercion parses to a number, or one on which `float` raises. -/
inductive CellVal where
  | num (q : ℚ)
  | unparsable
deriving DecidableEq

/-- Models the `float(str(v).replace(',', '').strip())` coercion attempt:
`some` on success, `none` when `float` raises. -/
def floatOfCell : CellVal → Option ℚ
  | .num q => some q
  | .unparsable => none

/-- The spec mapping returned by `get_bess_specs_for`: first-column labels
paired with the values of the resolved product/model column. -/
abbrev Specs := List (String × CellVal)

/-- The accepted spellings of the rated-energy key, in the order the code
tries them (Algorithm.py lines 342-347 and the identical lists at lines
919, 992, 1079). -/
def energy_key_candidates : List String :=
  ["100% DOD Energy (kWh)", "100%DOD Energy (kWh)", "100% DOD Energy",
   "Energy (kWh)"]

/-- The key-scanning loop: for each candidate key in order, if the key is
present try to coerce its value to a float; on success stop, on a coercion
failure (or absent key) move on to the next candidate. -/
def find_energy_loop (specs : Specs) : List String → Option ℚ
  | [] => none
  | k :: ks =>
    match specs.lookup k with
    | some v =>
      match floatOfCell v with
      | some q => some q
      | none => find_energy_loop specs ks
    | none => find_energy_loop specs ks

/-- The rated-energy extraction shared by `compute_proposed_bess_count`,
`compute_yearly_dc_nameplate`, `compute_yearly_dc_usable` and
`compute_yearly_ac_usable`: scan the accepted keys, `none` if no key is
present with a parsable value. -/
def find_energy_kwh (specs : Specs) : Option ℚ :=
  find_energy_loop specs energy_key_candidates

/-- Per-product calendar-degradation constant (Algorithm.py lines 358-364,
531-537, 868-874): 0.9565 for EDGE, 0.9808 for GRID5015, 1.0 for anything
else, keyed on the stripped upper-cased product string. -/
def calendar_degradation (product : String) : ℚ :=
  let p := pyStripUpper product
  if p = "EDGE" then 9565 / 10000
  else if p = "GRID5015" then 9808 / 10000
  else 1

/-- Discharge-efficiency selection of the yearly usable functions
(Algorithm.py lines 1003-1009 and 1090-1096): `None` and rates above 0.25
use 0.95, rates at or below 0.25 use 0.965. -/
def discharge_eff_of_rate : Option ℚ → ℚ
  | some d => if d ≤ 1 / 4 then 965 / 1000 else if d ≤ 1 / 2 then 95 / 100 else 95 / 100
  | none => 95 / 100

/-- Embeds `compute_proposed_bess_count` (Algorithm.py lines 324-404).
`model`, `augmentation_mode` and `bess_specs_sheet` feed only the
`get_bess_specs_for` spreadsheet lookup, whose outcome is the `specs`
argument (`none` models the lookup raising, caught by the function's
`except` clause).  `capacity_required_kwh or 0.0` is the identity on our
rational model for the non-negative requirements considered here. -/
def compute_proposed_bess_count (capacity_required_kwh : ℚ) (product : String)
    (solution_type : String) (specs : Option Specs) : ℤ :=
  match specs with
  | none => 0
  | some specs =>
    match find_energy_kwh specs with
    | none => 0
    | some energy_kwh =>
      if energy_kwh ≤ 0 then 0
      else
        let cal := calendar_degradation product
        let dod : ℚ := 95 / 100
        let discharge_rate : ℚ := 1 / 2
        let discharge_eff : ℚ :=
          if discharge_rate ≤ 1 / 4 then 965 / 1000
          else if discharge_rate ≤ 1 / 2 then 95 / 100
          else 95 / 100
        let ac_conversion : ℚ := 9732 / 10000
        let solution_mode := pyStripUpper solution_type
        let usable : ℚ :=
          if solution_mode = "AC" then
            energy_kwh * dod * discharge_eff * ac_conversion * cal
          else
            energy_kwh * dod * discharge_eff * cal
        if usable ≤ 0 then 0
        else max 0 ⌈capacity_required_kwh / usable⌉

/-- Embeds `compute_soh_percent` (Algorithm.py lines 847-890).  The input
dict's `deg_0 .. deg_20` entries are the `degs` list; `degs.getD year none`
models `degradation_curve.get(deg_key)` (absent key → `None`). -/
def compute_soh_percent (degs : List (Option ℚ)) (product : String) :
    List (Option ℚ) :=
  let cal := calendar_degradation product
  (List.range 21).map fun year =>
    match degs.getD year none with
    | none => none
    | some deg_val => some (roundTo 4 (max 0 (min 1 (deg_val * cal))))

/-- Year indexing of the containers list (Algorithm.py lines 934, 1015,
1102): `containers_list[year] if year < len(containers_list) else
containers_list[-1] if containers_list else 0`. -/
def containers_at (containers_list : List ℚ) (year : ℕ) : ℚ :=
  containers_list.getD year (containers_list.getLastD 0)

/-- Year indexing of the SOH list (Algorithm.py lines 1022, 1109):
`soh_list[year] if year < len(soh_list) and soh_list[year] is not None
else 1.0`. -/
def soh_at (soh_list : List (Option ℚ)) (year : ℕ) : ℚ :=
  (soh_list.getD year none).getD 1

/-- Unit conversion and rounding applied to each yearly value
(Algorithm.py lines 943-946 and the identical blocks at 1028-1031,
1115-1118). -/
def unit_round (capacity_unit : String) (v : ℚ) : ℚ :=
  if capacity_unit = "MWh" then roundTo 2 (v / 1000) else roundTo 2 v

/-- Embeds `compute_yearly_dc_nameplate` (Algorithm.py lines 893-953).
`product`/`model` feed only the `get_bess_specs_for` lookup, modelled by
the `specs` argument (`none` = lookup raised, caught by the `except`
returning 21 `None`s). -/
def compute_yearly_dc_nameplate (specs : Option Specs)
    (containers_list : List ℚ) (capacity_unit : String) : List (Option ℚ) :=
  match specs with
  | none => List.replicate 21 none
  | some specs =>
    match find_energy_kwh specs with
    | none => List.replicate 21 none
    | some energy_kwh =>
      if energy_kwh ≤ 0 then List.replicate 21 none
      else
        (List.range 21).map fun year =>
          let containers : ℚ := (pyInt (containers_at containers_list year) : ℚ)
          some (unit_round capacity_unit (energy_kwh * containers))

/-- Embeds `compute_yearly_dc_usable` (Algorithm.py lines 956-1038); the
`specs` argument models the `get_bess_specs_for` outcome as above. -/
def compute_yearly_dc_usable (specs : Option Specs) (containers_list : List ℚ)
    (soh_list : List (Option ℚ)) (capacity_unit : String) (dod : ℚ)
    (discharge_rate : Option ℚ) : List (Option ℚ) :=
  match specs with
  | none => List.replicate 21 none
  | some specs =>
    match find_energy_kwh specs with
    | none => List.replicate 21 none
    | some energy_kwh =>
      if energy_kwh ≤ 0 then List.replicate 21 none
      else
        let discharge_eff := discharge_eff_of_rate discharge_rate
        (List.range 21).map fun year =>
          let containers : ℚ := (pyInt (containers_at containers_list year) : ℚ)
          let soh := soh_at soh_list year
          some (unit_round capacity_unit
            (energy_kwh * containers * dod * discharge_eff * soh))

/-- Embeds `compute_yearly_ac_usable` (Algorithm.py lines 1041-1125); same
shape as the DC variant with the extra `ac_conversion` factor. -/
def compute_yearly_ac_usable (specs : Option Specs) (containers_list : List ℚ)
    (soh_list : List (Option ℚ)) (capacity_unit : String) (dod : ℚ)
    (discharge_rate : Option ℚ) (ac_conversion : ℚ) : List (Option ℚ) :=
  match specs with
  | none => List.replicate 21 none
  | some specs =>
    match find_energy_kwh specs with
    | none => List.replicate 21 none
    | some energy_kwh =>
      if energy_kwh ≤ 0 then List.replicate 21 none
      else
        let discharge_eff := discharge_eff_of_rate discharge_rate
        (List.range 21).map fun year =>
          let containers : ℚ := (pyInt (containers_at containers_list year) : ℚ)
          let soh := soh_at soh_list year
          some (unit_round capacity_unit
            (energy_kwh * containers * dod * discharge_eff * ac_conversion * soh))

/-- Loop body of the container schedule (ui.py lines 1210-1215): `n` years
remain, `year` is the current index, `cum` the running `cumulative_aug`.
Each iteration adds the year's augmentation to the running sum and appends
`proposed_bess + cumulative_aug`. -/
def containers_loop (proposed_bess : ℚ) (plan : List ℚ) :
    ℕ → ℕ → ℚ → List ℚ
  | 0, _, _ => []
  | n + 1, year, cum =>
    let cum2 := cum + plan.getD year 0
    (proposed_bess + cum2) :: containers_loop proposed_bess plan n (year + 1) cum2

/-- Embeds the `containers_list` recomputation of ui.py lines 1210-1215:
21 iterations starting from year 0 with `cumulative_aug = 0`.  The session
state guarantees `augmentation_plan` has 21 entries; `getD year 0` models
the `augmentation_plan[year]` indexing. -/
def containers_list (proposed_bess : ℚ) (augmentation_plan : List ℚ) : List ℚ :=
  containers_loop proposed_bess augmentation_plan 21 0 0

/-- One row of the degradation sheet, already parsed: the `Cell` column,
the `Cycle` column, the `P-rate` column (`none` models a NaN cell), the
values of the year columns `0 year .. 20 year` (`none` at an index models
a missing column or NaN there) and of the `CD_0 .. CD_24` columns. -/
structure DegRow where
  cell : Option ℚ
  cycle : Option ℚ
  prate : Option ℚ
  degs : List (Option ℚ)
  cds : List (Option ℚ)
deriving DecidableEq

/-- The distinct exceptions `get_degradation_curve` can raise after the
table has loaded: the `ValueError`s of the three emptiness checks
(Algorithm.py lines 725-726, 742-743, 761-762) and the `ValueError` that
Python's `min` raises on the empty candidate sequences at lines 738 and
757. -/
inductive DegErr where
  | noCellRows
  | emptyCycleCandidates
  | noCycleRows
  | emptyPrateCandidates
  | noPrateRows
deriving DecidableEq

/-- The `filter_info` dict of the result (Algorithm.py lines 815-823). -/
structure FilterInfo where
  product : String
  targetCell : ℚ
  inputCyclesPerYear : ℤ
  matchedCycle : ℤ
  inputDischargeRate : ℚ
  matchedPrate : ℚ
deriving DecidableEq

/-- The result dict of `get_degradation_curve`: the `deg_0 .. deg_20`
values, the `CD_0 .. CD_24` values and `filter_info`. -/
structure CurveResult where
  degs : List (Option ℚ)
  cds : List (Option ℚ)
  filterInfo : FilterInfo
deriving DecidableEq

/-- Per-product cell code (Algorithm.py line 712): 300 when the stripped
upper-cased product is EDGE, 314 otherwise. -/
def target_cell (product : String) : ℚ :=
  if pyStripUpper product = "EDGE" then 300 else 314

/-- The exact cell-type filter `df[df[cell_col] == target_cell]`
(Algorithm.py line 723); a NaN cell compares unequal. -/
def cellRows (table : List DegRow) (tc : ℚ) : List DegRow :=
  table.filter fun r => decide (r.cell = some tc)

/-- Models `series.dropna().unique()`: the non-null values in first-seen
order with duplicates removed. -/
def uniqueFirstAux : List ℚ → List ℚ → List ℚ
  | _, [] => []
  | seen, x :: xs =>
    if x ∈ seen then uniqueFirstAux seen xs
    else x :: uniqueFirstAux (x :: seen) xs

/-- The candidate values of a column over a row set:
`rows[col].dropna().unique()`. -/
def candidateVals (rows : List DegRow) (col : DegRow → Option ℚ) : List ℚ :=
  uniqueFirstAux [] (rows.filterMap col)

/-- One comparison step of Python's `min(candidates, key=lambda x:
abs(x - target))`: the current best is replaced only when the new
candidate's key is strictly smaller, so the first element with the minimal
key wins. -/
def nearStep (target best y : ℚ) : ℚ :=
  if |y - target| < |best - target| then y else best

/-- Models `min(candidates, key=lambda x: abs(x - target))` as the left
fold of `nearStep` over the candidates; `none` models the `ValueError`
that `min` raises on an empty sequence. -/
def nearestVal (target : ℚ) : List ℚ → Option ℚ
  | [] => none
  | x :: xs => some (xs.foldl (nearStep target) x)

/-- Extraction of the 21 `deg_i` values from the selected row (Algorithm.py
lines 777-800): `row.degs.getD i none` models "the `i year` column's value,
`None` when the column is missing or the cell is NaN". -/
def degsOfRow (row : DegRow) : List (Option ℚ) :=
  (List.range 21).map fun i => row.degs.getD i none

/-- Extraction of the 25 `CD_i` values (Algorithm.py lines 803-809). -/
def cdsOfRow (row : DegRow) : List (Option ℚ) :=
  (List.range 25).map fun i => row.cds.getD i none

/-- The curve-selection pipeline of `get_degradation_curve` after the cell
code has been fixed (Algorithm.py lines 723-809): cell filter, nearest
cycle then filter, nearest P-rate then filter, take the first remaining
row.  Returns the extracted deg/CD values together with the nearest cycle
and P-rate values the filters matched on. -/
def curveCore (table : List DegRow) (tc : ℚ) (cycles_per_year : ℤ)
    (discharge_rate : ℚ) :
    Except DegErr (List (Option ℚ) × List (Option ℚ) × ℚ × ℚ) :=
  let rows1 := cellRows table tc
  if rows1.isEmpty then .error .noCellRows
  else
    match nearestVal (cycles_per_year : ℚ) (candidateVals rows1 DegRow.cycle) with
    | none => .error .emptyCycleCandidates
    | some nearest_cycle =>
      let rows2 := rows1.filter fun r => decide (r.cycle = some nearest_cycle)
      if rows2.isEmpty then .error .noCycleRows
      else
        match nearestVal discharge_rate (candidateVals rows2 DegRow.prate) with
        | none => .error .emptyPrateCandidates
        | some nearest_prate =>
          let rows3 := rows2.filter fun r => decide (r.prate = some nearest_prate)
          match rows3 with
          | [] => .error .noPrateRows
          | row :: _ =>
            .ok (degsOfRow row, cdsOfRow row, nearest_cycle, nearest_prate)

/-- Embeds `get_degradation_curve` (Algorithm.py lines 671-844; `debug`
printing has no effect on the result).  The table argument is the parsed
Degradation sheet; the `filter_info` fields mirror lines 815-823, in
particular `matched_cycle = int(nearest_cycle)` (truncation) and
`matched_prate = float(nearest_prate)` (identity here). -/
def get_degradation_curve (table : List DegRow) (product : String)
    (cycles_per_year : ℤ) (discharge_rate : ℚ) : Except DegErr CurveResult :=
  match curveCore table (target_cell product) cycles_per_year discharge_rate with
  | .error e => .error e
  | .ok (degs, cds, nearest_cycle, nearest_prate) =>
    .ok { degs := degs, cds := cds,
          filterInfo :=
            { product := product
              targetCell := target_cell product
              inputCyclesPerYear := cycles_per_year
              matchedCycle := pyInt nearest_cycle
              inputDischargeRate := discharge_rate
              matchedPrate := nearest_prate } }

/-- The property the spec ascribes to nearest-match selection: `m` occurs in
the candidate list, every candidate strictly before that occurrence has a
strictly larger absolute difference to the target (first-seen wins on exact
ties), and no candidate has a smaller absolute difference. -/
def NearestSpec (target : ℚ) (candidates : List ℚ) (m : ℚ) : Prop :=
  ∃ pre post, candidates = pre ++ m :: post ∧
    (∀ v ∈ pre, |m - target| < |v - target|) ∧
    ∀ v ∈ candidates, |m - target| ≤ |v - target|

/-- A spec sheet whose resolved column carries a rated energy of 760 kWh
under the canonical key. -/
def specs760 : Specs := [("100% DOD Energy (kWh)", CellVal.num 760)]

/-- A spec sheet with a rated energy of 100 kWh under the canonical key. -/
def specs100 : Specs := [("100% DOD Energy (kWh)", CellVal.num 100)]

/-- A spec sheet carrying no accepted rated-energy key at all, but a float
parsable value under another label. -/
def specsNoEnergyKey : Specs := [("Rated Power (kW)", CellVal.num 500)]

/-- Degradation row with the non-integral cycle value 3.5. -/
def rowHalfCycle : DegRow :=
  { cell := some 314, cycle := some (7 / 2), prate := some (1 / 2),
    degs := [some 1], cds := [] }

/-- Degradation row with the integral cycle value 3. -/
def rowIntCycle : DegRow :=
  { cell := some 314, cycle := some 3, prate := some (1 / 2),
    degs := [some 2], cds := [] }

/-- A degradation table whose nearest cycle match can be a non-integral
value. -/
def tblTrunc : List DegRow := [rowHalfCycle, rowIntCycle]

/-- Degradation row whose P-rate cell is NaN. -/
def rowNullPrate : DegRow :=
  { cell := some 314, cycle := some 365, prate := none, degs := [], cds := [] }

/-- Degradation row with both cycle and P-rate present. -/
def rowFullRow : DegRow :=
  { cell := some 314, cycle := some 400, prate := some (1 / 2),
    degs := [], cds := [] }

/-- A degradation table mixing a row with a NaN P-rate and a complete row. -/
def tblMixedNull : List DegRow := [rowNullPrate, rowFullRow]

/-- Degradation row tabulated at 365 cycles/year. -/
def rowY365 : DegRow :=
  { cell := some 314, cycle := some 365, prate := some (1 / 2),
    degs := [some (95 / 100)], cds := [] }

/-- Degradation row tabulated at 730 cycles/year. -/
def rowY730 : DegRow :=
  { cell := some 314, cycle := some 730, prate := some (1 / 2),
    degs := [some (9 / 10)], cds := [] }

/-- A degradation table tabulated at 365 and 730 cycles/year. -/
def tblCycles : List DegRow := [rowY365, rowY730]

theorem clamp_comm (x : ℚ) : max 0 (min 1 x) = min 1 (max 0 x) := by
  simp only [max_def, min_def]
  split_ifs <;> first | rfl | linarith

theorem range_map_getD {α : Type} (n : ℕ) (f : ℕ → α) (d : α) (r : ℕ)
    (hr : r < n) : ((List.range n).map f).getD r d = f r := by
  rw [List.getD_eq_getElem?_getD, List.getElem?_map, List.getElem?_range hr]
  rfl

/-- C7: for every discharge rate, the discharge efficiency is 0.965 when
the rate is at most 0.25 and 0.95 otherwise; in particular 0.6C (above the
0.5C boundary) selects the same efficiency as 0.5C, so the yearly DC- and
AC-usable projections at rate 0.6 coincide with those at rate 0.5 for
otherwise identical inputs. -/
theorem discharge_efficiency_threshold_spec :
    (∀ d : ℚ, d ≤ 1 / 4 → discharge_eff_of_rate (some d) = 965 / 1000) ∧
    (∀ d : ℚ, ¬ d ≤ 1 / 4 → discharge_eff_of_rate (some d) = 95 / 100) ∧
    (∀ specs containers soh unit dod,
      compute_yearly_dc_usable specs containers soh unit dod (some (6 / 10)) =
        compute_yearly_dc_usable specs containers soh unit dod (some (1 / 2))) ∧
    (∀ specs containers soh unit dod ac,
      compute_yearly_ac_usable specs containers soh unit dod (some (6 / 10)) ac =
        compute_yearly_ac_usable specs containers soh unit dod (some (1 / 2)) ac) := by
  have h6 : discharge_eff_of_rate (some (6 / 10)) = 95 / 100 := by
    norm_num [discharge_eff_of_rate]
  have h5 : discharge_eff_of_rate (some (1 / 2)) = 95 / 100 := by
    norm_num [discharge_eff_of_rate]
  refine ⟨?_, ?_, ?_, ?_⟩
  · intro d hd
    simp only [discharge_eff_of_rate, if_pos hd]
  · intro d hd
    simp only [discharge_eff_of_rate, if_neg hd, ite_self]
  · intro specs containers soh unit dod
    simp only [compute_yearly_dc_usable, h6, h5]
  · intro specs containers soh unit dod ac
    simp only [compute_yearly_ac_usable, h6, h5]

theorem discharge_efficiency_threshold_spec_witness :
    ((1 : ℚ) / 10 ≤ 1 / 4 ∧ discharge_eff_of_rate (some (1 / 10)) = 965 / 1000) ∧
    (¬ (6 : ℚ) / 10 ≤ 1 / 4 ∧ discharge_eff_of_rate (some (6 / 10)) = 95 / 100) :=
  ⟨⟨by norm_num, discharge_efficiency_threshold_spec.1 (1 / 10) (by norm_num)⟩,
   ⟨by norm_num, discharge_efficiency_threshold_spec.2.1 (6 / 10) (by norm_num)⟩⟩

/-- C4: `compute_soh_percent` returns 21 entries; entry `r` is
`round(clamp(deg_r * calendar_constant, 0, 1), 4)` when `deg_r` is present
and `None` when it is missing, where the calendar constant is 0.9565 for
EDGE, 0.9808 for GRID5015 and 1.0 for any other product. -/
theorem compute_soh_percent_spec (degs : List (Option ℚ)) (product : String) :
    (compute_soh_percent degs product).length = 21 ∧
    (∀ r, r < 21 → (compute_soh_percent degs product).getD r none =
      (degs.getD r none).map
        (fun d => roundTo 4 (min 1 (max 0 (d * calendar_degradation product))))) ∧
    (pyStripUpper product = "EDGE" → calendar_degradation product = 9565 / 10000) ∧
    (pyStripUpper product = "GRID5015" →
      calendar_degradation product = 9808 / 10000) ∧
    (pyStripUpper product ≠ "EDGE" → pyStripUpper product ≠ "GRID5015" →
      calendar_degradation product = 1) := by
  have hsg : ("GRID5015" : String) ≠ "EDGE" := by decide
  refine ⟨by simp [compute_soh_percent], ?_, ?_, ?_, ?_⟩
  · intro r hr
    rw [compute_soh_percent]
    rw [range_map_getD 21 _ _ r hr]
    cases h : degs.getD r none with
    | none => simp
    | some d => simp [clamp_comm]
  · intro h
    simp [calendar_degradation, h]
  · intro h
    simp [calendar_degradation, h, hsg]
  · intro h1 h2
    simp [calendar_degradation, h1, h2]

theorem compute_soh_percent_spec_witness :
    (compute_soh_percent [some (9 / 10)] "GRID5015").length = 21 ∧
    (compute_soh_percent [some (9 / 10)] "GRID5015").getD 0 none =
      (([some (9 / 10)] : List (Option ℚ)).getD 0 none).map
        (fun d => roundTo 4 (min 1 (max 0 (d * calendar_degradation "GRID5015")))) ∧
    calendar_degradation "GRID5015" = 9808 / 10000 :=
  ⟨(compute_soh_percent_spec [some (9 / 10)] "GRID5015").1,
   (compute_soh_percent_spec [some (9 / 10)] "GRID5015").2.1 0 (by norm_num),
   (compute_soh_percent_spec [some (9 / 10)] "GRID5015").2.2.2.1 (by decide)⟩

theorem calendar_degradation_pos (product : String) :
    0 < calendar_degradation product := by
  rw [calendar_degradation]
  split_ifs <;> norm_num

/-- C3: for every non-negative requirement, `compute_proposed_bess_count`
returns `max 0 ⌈requirement / usable_per_unit⌉` where `usable_per_unit`
is rated energy × DOD (0.95) × discharge efficiency (0.95) × the AC
conversion factor when the solution type is AC × the product's calendar
constant; and it returns 0 (raising nothing) whenever `usable_per_unit ≤ 0`
or the spec lookup fails (including when no rated energy can be parsed). -/
theorem compute_proposed_bess_count_spec (req : ℚ)
    (product solution_type : String) (hreq : 0 ≤ req) :
    compute_proposed_bess_count req product solution_type none = 0 ∧
    (∀ specs : Specs, find_energy_kwh specs = none →
      compute_proposed_bess_count req product solution_type (some specs) = 0) ∧
    (∀ (specs : Specs) (e : ℚ), find_energy_kwh specs = some e →
      ((e * (95 / 100) * (95 / 100) *
          (if pyStripUpper solution_type = "AC" then (9732 / 10000 : ℚ) else 1) *
          calendar_degradation product ≤ 0) →
        compute_proposed_bess_count req product solution_type (some specs) = 0) ∧
      ((0 < e * (95 / 100) * (95 / 100) *
          (if pyStripUpper solution_type = "AC" then (9732 / 10000 : ℚ) else 1) *
          calendar_degradation product) →
        compute_proposed_bess_count req product solution_type (some specs) =
          max 0 ⌈req / (e * (95 / 100) * (95 / 100) *
            (if pyStripUpper solution_type = "AC" then (9732 / 10000 : ℚ) else 1) *
            calendar_degradation product)⌉)) := by
  have hcal : 0 < calendar_degradation product := calendar_degradation_pos product
  have hite : (0 : ℚ) <
      (if pyStripUpper solution_type = "AC" then (9732 / 10000 : ℚ) else 1) := by
    split_ifs <;> norm_num
  refine ⟨rfl, ?_, ?_⟩
  · intro specs h
    simp [compute_proposed_bess_count, h]
  · intro specs e he
    constructor
    · intro hle
      have he0 : e ≤ 0 := by
        by_contra h0
        push_neg at h0
        have : 0 < e * (95 / 100) * (95 / 100) *
            (if pyStripUpper solution_type = "AC" then (9732 / 10000 : ℚ) else 1) *
            calendar_degradation product := by positivity
        linarith
      simp [compute_proposed_bess_count, he, he0]
    · intro hlt
      have he0 : 0 < e := by
        by_contra h0
        push_neg at h0
        have hmul : e * (95 / 100) * (95 / 100) *
            (if pyStripUpper solution_type = "AC" then (9732 / 10000 : ℚ) else 1) *
            calendar_degradation product ≤ 0 := by
          apply mul_nonpos_of_nonpos_of_nonneg
          · apply mul_nonpos_of_nonpos_of_nonneg
            · apply mul_nonpos_of_nonpos_of_nonneg
              · apply mul_nonpos_of_nonpos_of_nonneg h0 (by norm_num)
              · norm_num
            · exact le_of_lt hite
          · exact le_of_lt hcal
        linarith
      simp only [compute_proposed_bess_count, he]
      rw [if_neg (not_le.mpr he0)]
      by_cases hAC : pyStripUpper solution_type = "AC"
      · rw [if_pos hAC] at hlt ⊢
        have heq : e * (95 / 100) *
            (if (1 : ℚ) / 2 ≤ 1 / 4 then (965 : ℚ) / 1000
              else if (1 : ℚ) / 2 ≤ 1 / 2 then 95 / 100 else 95 / 100) *
            (9732 / 10000) * calendar_degradation product =
            e * (95 / 100) * (95 / 100) * (9732 / 10000) *
              calendar_degradation product := by
          norm_num
        rw [if_pos hAC, heq, if_neg (not_le.mpr hlt)]
      · rw [if_neg hAC] at hlt ⊢
        have heq : e * (95 / 100) *
            (if (1 : ℚ) / 2 ≤ 1 / 4 then (965 : ℚ) / 1000
              else if (1 : ℚ) / 2 ≤ 1 / 2 then 95 / 100 else 95 / 100) *
            calendar_degradation product =
            e * (95 / 100) * (95 / 100) * 1 * calendar_degradation product := by
          norm_num
        rw [if_neg hAC, heq, if_neg (not_le.mpr hlt)]

theorem compute_proposed_bess_count_spec_witness :
    (0 : ℚ) ≤ 3000 ∧ find_energy_kwh specs760 = some 760 ∧
    (0 < (760 : ℚ) * (95 / 100) * (95 / 100) *
      (if pyStripUpper "DC" = "AC" then (9732 / 10000 : ℚ) else 1) *
      calendar_degradation "EDGE") ∧
    compute_proposed_bess_count 3000 "EDGE" "DC" (some specs760) =
      max 0 ⌈(3000 : ℚ) / ((760 : ℚ) * (95 / 100) * (95 / 100) *
        (if pyStripUpper "DC" = "AC" then (9732 / 10000 : ℚ) else 1) *
        calendar_degradation "EDGE")⌉ := by
  have h1 : (0 : ℚ) ≤ 3000 := by norm_num
  have h2 : find_energy_kwh specs760 = some 760 := by decide
  have h3 : (0 : ℚ) < (760 : ℚ) * (95 / 100) * (95 / 100) *
      (if pyStripUpper "DC" = "AC" then (9732 / 10000 : ℚ) else 1) *
      calendar_degradation "EDGE" := by
    have := calendar_degradation_pos "EDGE"
    split_ifs <;> positivity
  exact ⟨h1, h2, h3,
    ((compute_proposed_bess_count_spec 3000 "EDGE" "DC" h1).2.2 specs760 760 h2).2 h3⟩

theorem find_energy_loop_none (specs : Specs) :
    ∀ ks : List String, (∀ k ∈ ks, specs.lookup k = none) →
      find_energy_loop specs ks = none := by
  intro ks
  induction ks with
  | nil => intro _; rfl
  | cons k ks ih =>
    intro hk
    rw [find_energy_loop, hk k (List.mem_cons_self k ks)]
    exact ih fun k hkmem => hk k (List.mem_cons_of_mem _ hkmem)

/-- C2 amended: when none of the accepted rated-energy spellings is a key
of the spec mapping, there is no numeric fallback: the energy scan yields
`None`, `compute_proposed_bess_count` returns 0 and
`compute_yearly_dc_nameplate` returns 21 `None` entries. -/
theorem no_energy_key_means_degraded_outputs (specs : Specs)
    (h : ∀ k ∈ energy_key_candidates, specs.lookup k = none) :
    find_energy_kwh specs = none ∧
    (∀ (req : ℚ) (product solution : String),
      compute_proposed_bess_count req product solution (some specs) = 0) ∧
    (∀ (containers : List ℚ) (unit : String),
      compute_yearly_dc_nameplate (some specs) containers unit =
        List.replicate 21 none) := by
  have hfind : find_energy_kwh specs = none :=
    find_energy_loop_none specs energy_key_candidates h
  exact ⟨hfind,
    fun req product solution => by simp [compute_proposed_bess_count, hfind],
    fun containers unit => by simp [compute_yearly_dc_nameplate, hfind]⟩

/-- C2 counterexample: a spec mapping with no accepted rated-energy key but
a float-parsable value under another label.  The claim says sizing should
use that value (here giving 7 containers for a 3000 kWh requirement on
EDGE); the code instead degrades to 0, and the yearly DC nameplate to 21
`None` entries. -/
theorem energy_fallback_counterexample :
    compute_proposed_bess_count 3000 "EDGE" "DC" (some specsNoEnergyKey) = 0 ∧
    compute_yearly_dc_nameplate (some specsNoEnergyKey) (List.replicate 21 1)
      "kWh" = List.replicate 21 none ∧
    (0 : ℤ) ≠ max 0 ⌈(3000 : ℚ) /
      (500 * (95 / 100) * (95 / 100) * (9565 / 10000))⌉ := by
  have hfind : find_energy_kwh specsNoEnergyKey = none := by decide
  refine ⟨by simp [compute_proposed_bess_count, hfind],
    by simp [compute_yearly_dc_nameplate, hfind], ?_⟩
  have hval : ⌈(3000 : ℚ) / (500 * (95 / 100) * (95 / 100) * (9565 / 10000))⌉ =
      (7 : ℤ) := by
    rw [Int.ceil_eq_iff]
    norm_num
  rw [hval]
  norm_num

theorem yearly_dc_usable_entry (specs : Specs) (e : ℚ) (containers : List ℚ)
    (soh : List (Option ℚ)) (unit : String) (dod : ℚ) (rate : Option ℚ)
    (r : ℕ) (hr : r < 21) (he : find_energy_kwh specs = some e)
    (hpos : 0 < e) :
    (compute_yearly_dc_usable (some specs) containers soh unit dod
      rate).getD r none =
      some (unit_round unit (e * (pyInt (containers_at containers r) : ℚ) *
        dod * discharge_eff_of_rate rate * soh_at soh r)) := by
  simp only [compute_yearly_dc_usable, he]
  rw [if_neg (not_le.mpr hpos)]
  exact range_map_getD 21 _ _ r hr

theorem yearly_ac_usable_entry (specs : Specs) (e : ℚ) (containers : List ℚ)
    (soh : List (Option ℚ)) (unit : String) (dod : ℚ) (rate : Option ℚ)
    (ac : ℚ) (r : ℕ) (hr : r < 21) (he : find_energy_kwh specs = some e)
    (hpos : 0 < e) :
    (compute_yearly_ac_usable (some specs) containers soh unit dod rate
      ac).getD r none =
      some (unit_round unit (e * (pyInt (containers_at containers r) : ℚ) *
        dod * discharge_eff_of_rate rate * ac * soh_at soh r)) := by
  simp only [compute_yearly_ac_usable, he]
  rw [if_neg (not_le.mpr hpos)]
  exact range_map_getD 21 _ _ r hr

/-- C1 amended: when the rated-energy lookup succeeds with a positive
value, a missing (`None`) SOH entry at a year does not propagate: it is
silently replaced by 1.0 (full health), and the DC- and AC-usable entries
for that year are the numeric values computed with SOH = 1. -/
theorem yearly_usable_missing_soh_defaults_to_full_health
    (specs : Specs) (e : ℚ) (containers : List ℚ) (soh : List (Option ℚ))
    (unit : String) (dod : ℚ) (rate : Option ℚ) (ac : ℚ) (r : ℕ)
    (hr : r < 21) (he : find_energy_kwh specs = some e) (hpos : 0 < e)
    (hsoh : soh.getD r none = none) :
    (compute_yearly_dc_usable (some specs) containers soh unit dod
      rate).getD r none =
      some (unit_round unit (e * (pyInt (containers_at containers r) : ℚ) *
        dod * discharge_eff_of_rate rate * 1)) ∧
    (compute_yearly_ac_usable (some specs) containers soh unit dod rate
      ac).getD r none =
      some (unit_round unit (e * (pyInt (containers_at containers r) : ℚ) *
        dod * discharge_eff_of_rate rate * ac * 1)) := by
  have h1 : soh_at soh r = 1 := by
    simp only [soh_at]
    rw [hsoh]
    rfl
  constructor
  · rw [yearly_dc_usable_entry specs e containers soh unit dod rate r hr he hpos, h1]
  · rw [yearly_ac_usable_entry specs e containers soh unit dod rate ac r hr he hpos, h1]

theorem yearly_usable_missing_soh_defaults_witness :
    ((0 : ℕ) < 21) ∧ find_energy_kwh specs100 = some 100 ∧ (0 : ℚ) < 100 ∧
    (List.replicate 21 (none : Option ℚ)).getD 0 none = none ∧
    (compute_yearly_dc_usable (some specs100) (List.replicate 21 2)
      (List.replicate 21 none) "kWh" (95 / 100) (some (1 / 2))).getD 0 none =
      some (unit_round "kWh"
        (100 * (pyInt (containers_at (List.replicate 21 2) 0) : ℚ) *
          (95 / 100) * discharge_eff_of_rate (some (1 / 2)) * 1)) := by
  have h0 : (0 : ℕ) < 21 := by norm_num
  have h1 : find_energy_kwh specs100 = some 100 := by decide
  have h2 : (0 : ℚ) < 100 := by norm_num
  have h3 : (List.replicate 21 (none : Option ℚ)).getD 0 none = none := by simp
  exact ⟨h0, h1, h2, h3,
    (yearly_usable_missing_soh_defaults_to_full_health specs100 100
      (List.replicate 21 2) (List.replicate 21 none) "kWh" (95 / 100)
      (some (1 / 2)) (9732 / 10000) 0 h0 h1 h2 h3).1⟩

/-- C1 counterexample: with a valid 100 kWh spec, a containers list of all
ones and an SOH series that is `None` at every index, the year-0 DC-usable
entry is the number 90.25 (and the AC-usable entry 87.83), not `None`:
the missing SOH is silently replaced by full health. -/
theorem yearly_usable_missing_soh_counterexample :
    (List.replicate 21 (none : Option ℚ)).getD 0 none = none ∧
    (compute_yearly_dc_usable (some specs100) (List.replicate 21 1)
        (List.replicate 21 none) "kWh" (95 / 100) (some (1 / 2))).getD 0 none =
      some (361 / 4) ∧
    (compute_yearly_ac_usable (some specs100) (List.replicate 21 1)
        (List.replicate 21 none) "kWh" (95 / 100) (some (1 / 2))
        (9732 / 10000)).getD 0 none = some (8783 / 100) := by
  have h1 : find_energy_kwh specs100 = some 100 := by decide
  have hc : containers_at (List.replicate 21 (1 : ℚ)) 0 = 1 := by
    simp [containers_at]
  have hpy : pyInt 1 = 1 := by norm_num [pyInt]
  have hsoh : soh_at (List.replicate 21 (none : Option ℚ)) 0 = 1 := by
    simp [soh_at]
  have heff : discharge_eff_of_rate (some ((1 : ℚ) / 2)) = 95 / 100 := by
    norm_num [discharge_eff_of_rate]
  have hkwh : ("kWh" : String) ≠ "MWh" := by decide
  refine ⟨by simp, ?_, ?_⟩
  · rw [yearly_dc_usable_entry specs100 100 _ _ _ _ _ 0 (by norm_num) h1
      (by norm_num), hc, hpy, hsoh, heff]
    have : unit_round "kWh" (100 * ((1 : ℤ) : ℚ) * (95 / 100) * (95 / 100) * 1) =
        361 / 4 := by
      rw [unit_round, if_neg hkwh, roundTo, round_eq]
      norm_num [Int.floor_eq_iff]
    rw [this]
  · rw [yearly_ac_usable_entry specs100 100 _ _ _ _ _ _ 0 (by norm_num) h1
      (by norm_num), hc, hpy, hsoh, heff]
    have : unit_round "kWh"
        (100 * ((1 : ℤ) : ℚ) * (95 / 100) * (95 / 100) * (9732 / 10000) * 1) =
        8783 / 100 := by
      rw [unit_round, if_neg hkwh, roundTo, round_eq]
      norm_num [Int.floor_eq_iff]
    rw [this]

theorem no_energy_key_means_degraded_outputs_witness :
    (∀ k ∈ energy_key_candidates, specsNoEnergyKey.lookup k = none) ∧
    find_energy_kwh specsNoEnergyKey = none ∧
    compute_proposed_bess_count 3000 "GRID5015" "AC" (some specsNoEnergyKey) = 0 := by
  have h : ∀ k ∈ energy_key_candidates, specsNoEnergyKey.lookup k = none := by
    decide
  exact ⟨h, (no_energy_key_means_degraded_outputs specsNoEnergyKey h).1,
    (no_energy_key_means_degraded_outputs specsNoEnergyKey h).2.1 3000
      "GRID5015" "AC"⟩

theorem containers_loop_length (b : ℚ) (plan : List ℚ) :
    ∀ (n year : ℕ) (cum : ℚ), (containers_loop b plan n year cum).length = n := by
  intro n
  induction n with
  | zero => intro year cum; rfl
  | succ n ih => intro year cum; simp only [containers_loop, List.length_cons, ih]

theorem containers_loop_getD (b : ℚ) (plan : List ℚ) :
    ∀ (n year : ℕ) (cum : ℚ) (r : ℕ), r < n →
      (containers_loop b plan n year cum).getD r 0 =
        b + cum + (((List.range (r + 1)).map fun i => plan.getD (year + i) 0).sum) := by
  intro n
  induction n with
  | zero => intro year cum r hr; exact absurd hr (Nat.not_lt_zero r)
  | succ n ih =>
    intro year cum r hr
    cases r with
    | zero =>
      simp only [containers_loop, List.getD_cons_zero]
      rw [List.range_succ, List.range_zero]
      simp only [List.nil_append, List.map_cons, List.map_nil, List.sum_cons,
        List.sum_nil, Nat.add_zero, add_zero]
      ring
    | succ r =>
      have hr' : r < n := Nat.lt_of_succ_lt_succ hr
      simp only [containers_loop, List.getD_cons_succ]
      rw [ih (year + 1) (cum + plan.getD year 0) r hr']
      have hsplit :
          (List.map (fun i => plan.getD (year + i) 0) (List.range (r + 1 + 1))).sum =
            plan.getD year 0 +
              (List.map (fun i => plan.getD (year + 1 + i) 0) (List.range (r + 1))).sum := by
        rw [List.range_succ_eq_map, List.map_cons, List.sum_cons, List.map_map]
        have hfun : ((fun i => plan.getD (year + i) 0) ∘ Nat.succ) =
            fun i => plan.getD (year + 1 + i) 0 := by
          funext i
          simp only [Function.comp_apply]
          congr 1
          omega
        rw [hfun]
        norm_num
      rw [hsplit]
      ring

theorem sum_range_getD_take (plan : List ℚ) :
    ∀ k, k ≤ plan.length →
      ((List.range k).map fun i => plan.getD i 0).sum = (plan.take k).sum := by
  intro k
  induction k with
  | zero => intro _; simp
  | succ k ih =>
    intro hk
    have hklt : k < plan.length := hk
    rw [List.range_succ, List.map_append, List.sum_append, ih (Nat.le_of_succ_le hk)]
    rw [List.take_succ]
    rw [List.sum_append]
    rw [List.getElem?_eq_getElem hklt]
    simp only [List.map_cons, List.map_nil, List.sum_cons, List.sum_nil,
      Option.toList_some, add_zero]
    rw [List.getD_eq_getElem?_getD, List.getElem?_eq_getElem hklt]
    rfl

/-- C5: for every base count and 21-entry non-negative augmentation plan,
the container schedule has 21 entries, entry `r` equals
`base + Σ augmentation[0..r]`, and the schedule is non-decreasing. -/
theorem containers_list_spec (base : ℚ) (plan : List ℚ)
    (hlen : plan.length = 21) (hpos : ∀ x ∈ plan, 0 ≤ x) :
    (containers_list base plan).length = 21 ∧
    (∀ r, r < 21 → (containers_list base plan).getD r 0 =
      base + (plan.take (r + 1)).sum) ∧
    (∀ r, r + 1 < 21 →
      (containers_list base plan).getD r 0 ≤
        (containers_list base plan).getD (r + 1) 0) := by
  have hform : ∀ r, r < 21 → (containers_list base plan).getD r 0 =
      base + (plan.take (r + 1)).sum := by
    intro r hr
    rw [containers_list, containers_loop_getD base plan 21 0 0 r hr]
    have hfun : (fun i => plan.getD (0 + i) 0) = fun i => plan.getD i 0 := by
      funext i
      rw [Nat.zero_add]
    rw [hfun, sum_range_getD_take plan (r + 1) (by omega)]
    ring
  refine ⟨by rw [containers_list, containers_loop_length], hform, ?_⟩
  intro r hr
  rw [hform r (by omega), hform (r + 1) hr]
  have hstep : (plan.take (r + 1)).sum ≤ (plan.take (r + 2)).sum := by
    rw [List.take_succ (n := r + 1), List.sum_append]
    rw [List.getElem?_eq_getElem (by omega : r + 1 < plan.length)]
    have hx : (0 : ℚ) ≤ plan[r + 1] :=
      hpos _ (List.getElem_mem (by omega))
    simp only [Option.toList_some, List.sum_cons, List.sum_nil, add_zero]
    linarith
  linarith

theorem containers_list_spec_witness :
    (List.replicate 21 (1 : ℚ)).length = 21 ∧
    (∀ x ∈ List.replicate 21 (1 : ℚ), 0 ≤ x) ∧
    (containers_list 2 (List.replicate 21 1)).getD 5 0 =
      2 + ((List.replicate 21 (1 : ℚ)).take 6).sum ∧
    (containers_list 2 (List.replicate 21 1)).getD 5 0 ≤
      (containers_list 2 (List.replicate 21 1)).getD 6 0 := by
  have hlen : (List.replicate 21 (1 : ℚ)).length = 21 := by simp
  have hpos : ∀ x ∈ List.replicate 21 (1 : ℚ), 0 ≤ x := by
    intro x hx
    rw [List.eq_of_mem_replicate hx]
    norm_num
  exact ⟨hlen, hpos,
    (containers_list_spec 2 _ hlen hpos).2.1 5 (by norm_num),
    (containers_list_spec 2 _ hlen hpos).2.2 5 (by norm_num)⟩

theorem foldl_nearStep_spec (t : ℚ) :
    ∀ (xs : List ℚ) (b : ℚ),
      ∃ pre post, b :: xs = pre ++ (xs.foldl (nearStep t) b) :: post ∧
        (∀ v ∈ pre, |xs.foldl (nearStep t) b - t| < |v - t|) ∧
        ∀ v ∈ b :: xs, |xs.foldl (nearStep t) b - t| ≤ |v - t| := by
  intro xs
  induction xs with
  | nil =>
    intro b
    refine ⟨[], [], rfl, by simp, ?_⟩
    intro v hv
    rw [List.mem_singleton] at hv
    rw [hv, List.foldl_nil]
  | cons y ys ih =>
    intro b
    rw [List.foldl_cons]
    by_cases hlt : |y - t| < |b - t|
    · have hstep : nearStep t b y = y := by rw [nearStep, if_pos hlt]
      rw [hstep]
      obtain ⟨pre, post, hdec, hpre, hmin⟩ := ih y
      refine ⟨b :: pre, post, ?_, ?_, ?_⟩
      · rw [List.cons_append, ← hdec]
      · intro v hv
        rcases List.mem_cons.mp hv with rfl | hv
        · exact lt_of_le_of_lt (hmin y (List.mem_cons_self y ys)) hlt
        · exact hpre v hv
      · intro v hv
        rcases List.mem_cons.mp hv with rfl | hv
        · exact le_of_lt (lt_of_le_of_lt (hmin y (List.mem_cons_self y ys)) hlt)
        · exact hmin v hv
    · have hstep : nearStep t b y = b := by rw [nearStep, if_neg hlt]
      rw [hstep]
      have hyb : |b - t| ≤ |y - t| := not_lt.mp hlt
      obtain ⟨pre, post, hdec, hpre, hmin⟩ := ih b
      cases pre with
      | nil =>
        rw [List.nil_append] at hdec
        injection hdec with hb hpost
        refine ⟨[], y :: ys, ?_, by simp, ?_⟩
        · rw [List.nil_append, ← hb]
        · intro v hv
          rcases List.mem_cons.mp hv with rfl | hv
          · exact hmin _ (List.mem_cons_self _ _)
          · rcases List.mem_cons.mp hv with rfl | hv
            · exact le_trans (hmin _ (List.mem_cons_self _ _)) hyb
            · exact hmin v (List.mem_cons_of_mem b hv)
      | cons p pre2 =>
        rw [List.cons_append] at hdec
        injection hdec with hb hys
        have hbstrict := hpre p (List.mem_cons_self p pre2)
        rw [← hb] at hbstrict
        refine ⟨b :: y :: pre2, post, ?_, ?_, ?_⟩
        · rw [List.cons_append, List.cons_append, ← hys]
        · intro v hv
          rcases List.mem_cons.mp hv with rfl | hv
          · exact hbstrict
          · rcases List.mem_cons.mp hv with rfl | hv
            · exact lt_of_lt_of_le hbstrict hyb
            · exact hpre v (List.mem_cons_of_mem p hv)
        · intro v hv
          rcases List.mem_cons.mp hv with rfl | hv
          · exact hmin _ (List.mem_cons_self _ _)
          · rcases List.mem_cons.mp hv with rfl | hv
            · exact le_trans (hmin _ (List.mem_cons_self _ _)) hyb
            · exact hmin v (List.mem_cons_of_mem b hv)

theorem nearestVal_spec (t : ℚ) (A : List ℚ) (m : ℚ)
    (h : nearestVal t A = some m) : NearestSpec t A m := by
  cases A with
  | nil => simp [nearestVal] at h
  | cons x xs =>
    rw [nearestVal] at h
    injection h with h
    rw [← h]
    exact foldl_nearStep_spec t xs x

theorem nearestSpec_mem (t : ℚ) (A : List ℚ) (m : ℚ)
    (h : NearestSpec t A m) : m ∈ A := by
  obtain ⟨pre, post, hdec, -, -⟩ := h
  rw [hdec]
  exact List.mem_append.mpr (Or.inr (List.mem_cons_self m post))

theorem nearestVal_at_mem (t : ℚ) (A : List ℚ) (m : ℚ)
    (h : nearestVal t A = some m) (ht : t ∈ A) : m = t := by
  obtain ⟨-, -, -, -, hmin⟩ := nearestVal_spec t A m h
  have h0 : |m - t| ≤ |t - t| := hmin t ht
  rw [sub_self, abs_zero] at h0
  have := abs_eq_zero.mp (le_antisymm h0 (abs_nonneg _))
  linarith [this]

theorem nearestVal_eq_none (t : ℚ) (A : List ℚ)
    (h : nearestVal t A = none) : A = [] := by
  cases A with
  | nil => rfl
  | cons x xs => simp [nearestVal] at h

theorem nearestVal_of_ne_nil (t : ℚ) (A : List ℚ) (h : A ≠ []) :
    ∃ m, nearestVal t A = some m := by
  cases A with
  | nil => exact absurd rfl h
  | cons x xs => exact ⟨xs.foldl (nearStep t) x, rfl⟩

theorem mem_of_uniqueFirstAux (x : ℚ) :
    ∀ (l seen : List ℚ), x ∈ uniqueFirstAux seen l → x ∈ l := by
  intro l
  induction l with
  | nil => intro seen hx; simp [uniqueFirstAux] at hx
  | cons y ys ih =>
    intro seen hx
    rw [uniqueFirstAux] at hx
    by_cases hy : y ∈ seen
    · rw [if_pos hy] at hx
      exact List.mem_cons_of_mem y (ih seen hx)
    · rw [if_neg hy] at hx
      rcases List.mem_cons.mp hx with rfl | hx
      · exact List.mem_cons_self x ys
      · exact List.mem_cons_of_mem y (ih _ hx)

theorem uniqueFirstAux_ne_nil (l : List ℚ) (hl : l ≠ []) :
    uniqueFirstAux [] l ≠ [] := by
  cases l with
  | nil => exact absurd rfl hl
  | cons y ys =>
    rw [uniqueFirstAux, if_neg (List.not_mem_nil y)]
    exact List.cons_ne_nil y _

theorem mem_candidateVals (rows : List DegRow) (col : DegRow → Option ℚ)
    (v : ℚ) (h : v ∈ candidateVals rows col) : ∃ r ∈ rows, col r = some v :=
  List.mem_filterMap.mp (mem_of_uniqueFirstAux v _ [] h)

theorem candidateVals_ne_nil (rows : List DegRow) (col : DegRow → Option ℚ)
    (r : DegRow) (hr : r ∈ rows) (v : ℚ) (hv : col r = some v) :
    candidateVals rows col ≠ [] :=
  uniqueFirstAux_ne_nil _
    (List.ne_nil_of_mem (List.mem_filterMap.mpr ⟨r, hr, hv⟩))

theorem curveCore_ok_inv (table : List DegRow) (tc : ℚ) (cyc : ℤ) (rate : ℚ)
    (d c : List (Option ℚ)) (nc np : ℚ)
    (h : curveCore table tc cyc rate = .ok (d, c, nc, np)) :
    nearestVal (cyc : ℚ) (candidateVals (cellRows table tc) DegRow.cycle) =
      some nc ∧
    nearestVal rate (candidateVals ((cellRows table tc).filter
      (fun r => decide (r.cycle = some nc))) DegRow.prate) = some np ∧
    ∃ row rest, ((cellRows table tc).filter
        (fun r => decide (r.cycle = some nc))).filter
        (fun r => decide (r.prate = some np)) = row :: rest ∧
      d = degsOfRow row ∧ c = cdsOfRow row := by
  simp only [curveCore] at h
  split at h
  · simp at h
  · split at h
    · simp at h
    · rename_i h1 nc0 hnc
      split at h
      · simp at h
      · split at h
        · simp at h
        · rename_i h2 np0 hnp
          split at h
          · simp at h
          · rename_i row rest hrows
            simp only [Except.ok.injEq, Prod.mk.injEq] at h
            obtain ⟨hd, hc, hnceq, hnpeq⟩ := h
            subst hnceq
            subst hnpeq
            exact ⟨hnc, hnp, row, rest, hrows, hd.symm, hc.symm⟩

theorem curveCore_error_inv (table : List DegRow) (tc : ℚ) (cyc : ℤ)
    (rate : ℚ) (e : DegErr) (h : curveCore table tc cyc rate = .error e) :
    (e = .noCellRows ∨ e = .emptyCycleCandidates ∨
      e = .emptyPrateCandidates) ∧
    (cellRows table tc = [] ∨
      candidateVals (cellRows table tc) DegRow.cycle = [] ∨
      ∃ nc, nearestVal (cyc : ℚ)
          (candidateVals (cellRows table tc) DegRow.cycle) = some nc ∧
        candidateVals ((cellRows table tc).filter
          (fun r => decide (r.cycle = some nc))) DegRow.prate = []) := by
  simp only [curveCore] at h
  split at h
  · rename_i h1
    simp only [Except.error.injEq] at h
    exact ⟨Or.inl h.symm, Or.inl (List.isEmpty_iff.mp h1)⟩
  · split at h
    · rename_i h1 hnone
      simp only [Except.error.injEq] at h
      exact ⟨Or.inr (Or.inl h.symm),
        Or.inr (Or.inl (nearestVal_eq_none _ _ hnone))⟩
    · rename_i h1 nc hnc
      split at h
      · rename_i h2
        exfalso
        obtain ⟨r, hr, hcyc⟩ := mem_candidateVals _ _ _
          (nearestSpec_mem _ _ _ (nearestVal_spec _ _ _ hnc))
        have hmem : r ∈ (cellRows table tc).filter
            (fun r => decide (r.cycle = some nc)) :=
          List.mem_filter.mpr ⟨hr, by simp [hcyc]⟩
        rw [List.isEmpty_iff.mp h2] at hmem
        exact List.not_mem_nil r hmem
      · split at h
        · rename_i h2 hnone
          simp only [Except.error.injEq] at h
          exact ⟨Or.inr (Or.inr h.symm),
            Or.inr (Or.inr ⟨nc, hnc, nearestVal_eq_none _ _ hnone⟩)⟩
        · rename_i h2 np hnp
          split at h
          · rename_i hrows
            exfalso
            obtain ⟨r, hr, hprate⟩ := mem_candidateVals _ _ _
              (nearestSpec_mem _ _ _ (nearestVal_spec _ _ _ hnp))
            have hmem : r ∈ ((cellRows table tc).filter
                (fun r => decide (r.cycle = some nc))).filter
                (fun r => decide (r.prate = some np)) :=
              List.mem_filter.mpr ⟨hr, by simp [hprate]⟩
            rw [hrows] at hmem
            exact List.not_mem_nil r hmem
          · simp at h

/-- C6: whenever the selection pipeline succeeds, the value it filtered the
cycle column on satisfies the nearest-match property (member of the
candidate list, minimal absolute difference to the query, first-seen wins
on ties), the P-rate value satisfies the same property over the
cycle-filtered rows, and `get_degradation_curve` reports exactly those two
values in `filter_info` (`matched_cycle` as `int(nearest_cycle)`,
`matched_prate` unchanged). -/
theorem nearest_match_selection_spec (table : List DegRow) (product : String)
    (cyc : ℤ) (rate : ℚ) (d c : List (Option ℚ)) (nc np : ℚ)
    (h : curveCore table (target_cell product) cyc rate = .ok (d, c, nc, np)) :
    NearestSpec (cyc : ℚ)
      (candidateVals (cellRows table (target_cell product)) DegRow.cycle) nc ∧
    NearestSpec rate
      (candidateVals ((cellRows table (target_cell product)).filter
        (fun r => decide (r.cycle = some nc))) DegRow.prate) np ∧
    get_degradation_curve table product cyc rate = .ok
      { degs := d, cds := c,
        filterInfo :=
          { product := product, targetCell := target_cell product,
            inputCyclesPerYear := cyc, matchedCycle := pyInt nc,
            inputDischargeRate := rate, matchedPrate := np } } := by
  obtain ⟨hnc, hnp, -⟩ := curveCore_ok_inv table _ cyc rate d c nc np h
  exact ⟨nearestVal_spec _ _ _ hnc, nearestVal_spec _ _ _ hnp,
    by rw [get_degradation_curve, h]⟩

/-- C10: any product whose stripped upper-cased form is not EDGE — in
particular any unrecognized product — is filtered with cell code 314
(GRID5015's code) and receives exactly GRID5015's curve data and matched
values for the same query; it is never rejected at this step. -/
theorem unknown_product_uses_grid5015_cell (product : String)
    (h : pyStripUpper product ≠ "EDGE") :
    target_cell product = 314 ∧
    ∀ (table : List DegRow) (cyc : ℤ) (rate : ℚ),
      (get_degradation_curve table product cyc rate).map
        (fun res => (res.degs, res.cds, res.filterInfo.matchedCycle,
          res.filterInfo.matchedPrate)) =
      (get_degradation_curve table "GRID5015" cyc rate).map
        (fun res => (res.degs, res.cds, res.filterInfo.matchedCycle,
          res.filterInfo.matchedPrate)) := by
  have htc : target_cell product = 314 := by rw [target_cell, if_neg h]
  have htg : target_cell "GRID5015" = 314 := by
    rw [target_cell, if_neg (by decide)]
  refine ⟨htc, ?_⟩
  intro table cyc rate
  rw [get_degradation_curve, get_degradation_curve, htc, htg]
  cases curveCore table 314 cyc rate with
  | error e => rfl
  | ok v =>
    obtain ⟨dd, cc, nc, np⟩ := v
    rfl

theorem unknown_product_uses_grid5015_cell_witness :
    pyStripUpper "FOO" ≠ "EDGE" ∧ target_cell "FOO" = 314 ∧
    (get_degradation_curve tblCycles "FOO" 350 (1 / 2)).map
      (fun res => (res.degs, res.cds, res.filterInfo.matchedCycle,
        res.filterInfo.matchedPrate)) =
    (get_degradation_curve tblCycles "GRID5015" 350 (1 / 2)).map
      (fun res => (res.degs, res.cds, res.filterInfo.matchedCycle,
        res.filterInfo.matchedPrate)) := by
  have h : pyStripUpper "FOO" ≠ "EDGE" := by decide
  exact ⟨h, (unknown_product_uses_grid5015_cell "FOO" h).1,
    (unknown_product_uses_grid5015_cell "FOO" h).2 tblCycles 350 (1 / 2)⟩

/-- C9 amended: the explicit no-rows-found ValueError branches after the
cycle filter and after the P-rate filter are unreachable for every input.
When at least one cell-filtered row has a non-null cycle value the cycle
nearest-match cannot fail either, and if additionally some row matching
the nearest cycle value has a non-null P-rate the whole lookup succeeds.
(With a nonempty cell filter the lookup can still raise: Python's `min`
fails on an empty candidate list, as the counterexample shows.) -/
theorem no_rows_branches_unreachable (table : List DegRow) (product : String)
    (cyc : ℤ) (rate : ℚ) :
    curveCore table (target_cell product) cyc rate ≠ .error .noCycleRows ∧
    curveCore table (target_cell product) cyc rate ≠ .error .noPrateRows ∧
    ((∃ r ∈ cellRows table (target_cell product), (DegRow.cycle r).isSome) →
      (∀ nc, nearestVal (cyc : ℚ)
          (candidateVals (cellRows table (target_cell product))
            DegRow.cycle) = some nc →
        ∃ r ∈ (cellRows table (target_cell product)).filter
          (fun r => decide (r.cycle = some nc)), (DegRow.prate r).isSome) →
      ∃ out, curveCore table (target_cell product) cyc rate = .ok out) := by
  refine ⟨?_, ?_, ?_⟩
  · intro hcontra
    rcases (curveCore_error_inv table _ cyc rate _ hcontra).1 with h | h | h <;>
      simp at h
  · intro hcontra
    rcases (curveCore_error_inv table _ cyc rate _ hcontra).1 with h | h | h <;>
      simp at h
  · intro h1 h2
    cases hcc : curveCore table (target_cell product) cyc rate with
    | ok out => exact ⟨out, rfl⟩
    | error e =>
      exfalso
      obtain ⟨-, hd⟩ := curveCore_error_inv table _ cyc rate e hcc
      obtain ⟨r0, hr0, hcyc0⟩ := h1
      rcases hd with hd | hd | ⟨nc, hnc, hd⟩
      · rw [hd] at hr0
        exact List.not_mem_nil r0 hr0
      · obtain ⟨v0, hv0⟩ := Option.isSome_iff_exists.mp hcyc0
        exact candidateVals_ne_nil _ _ r0 hr0 v0 hv0 hd
      · obtain ⟨r2, hr2, hprate2⟩ := h2 nc hnc
        obtain ⟨w0, hw0⟩ := Option.isSome_iff_exists.mp hprate2
        exact candidateVals_ne_nil _ _ r2 hr2 w0 hw0 hd

/-- C8 amended: if a successful lookup matched cycle value `nc` and P-rate
`np`, and `nc` is integral (so the `int()` truncation in `matched_cycle`
does not lose information), then re-querying with `matched_cycle` and
`matched_prate` returns the same curve data and the same matched values.
With a non-integral matched cycle the truncation can change the nearest
match, as the counterexample shows. -/
theorem requery_idempotent_for_integral_matched_cycle
    (table : List DegRow) (product : String) (cyc : ℤ) (rate : ℚ)
    (d c : List (Option ℚ)) (nc np : ℚ)
    (h : curveCore table (target_cell product) cyc rate = .ok (d, c, nc, np))
    (hint : ((pyInt nc : ℤ) : ℚ) = nc) :
    get_degradation_curve table product cyc rate = .ok
      { degs := d, cds := c,
        filterInfo :=
          { product := product, targetCell := target_cell product,
            inputCyclesPerYear := cyc, matchedCycle := pyInt nc,
            inputDischargeRate := rate, matchedPrate := np } } ∧
    get_degradation_curve table product (pyInt nc) np = .ok
      { degs := d, cds := c,
        filterInfo :=
          { product := product, targetCell := target_cell product,
            inputCyclesPerYear := pyInt nc, matchedCycle := pyInt nc,
            inputDischargeRate := np, matchedPrate := np } } := by
  obtain ⟨hnc, hnp, row, rest, hrows3, hd, hc⟩ :=
    curveCore_ok_inv table _ cyc rate d c nc np h
  have hmem1 : nc ∈ candidateVals (cellRows table (target_cell product))
      DegRow.cycle :=
    nearestSpec_mem _ _ _ (nearestVal_spec _ _ _ hnc)
  have hnc2 : nearestVal ((pyInt nc : ℤ) : ℚ)
      (candidateVals (cellRows table (target_cell product)) DegRow.cycle) =
      some nc := by
    rw [hint]
    obtain ⟨m, hm⟩ := nearestVal_of_ne_nil nc _ (List.ne_nil_of_mem hmem1)
    rw [hm, nearestVal_at_mem nc _ m hm hmem1]
  have hmem2 : np ∈ candidateVals
      ((cellRows table (target_cell product)).filter
        (fun r => decide (r.cycle = some nc))) DegRow.prate :=
    nearestSpec_mem _ _ _ (nearestVal_spec _ _ _ hnp)
  have hnp2 : nearestVal np
      (candidateVals ((cellRows table (target_cell product)).filter
        (fun r => decide (r.cycle = some nc))) DegRow.prate) = some np := by
    obtain ⟨m, hm⟩ := nearestVal_of_ne_nil np _ (List.ne_nil_of_mem hmem2)
    rw [hm, nearestVal_at_mem np _ m hm hmem2]
  obtain ⟨r1, hr1, -⟩ := mem_candidateVals _ _ _ hmem1
  have hE1 : (cellRows table (target_cell product)).isEmpty = false :=
    Bool.eq_false_iff.mpr
      (fun hT => List.ne_nil_of_mem hr1 (List.isEmpty_iff.mp hT))
  have hrowmem : row ∈ (cellRows table (target_cell product)).filter
      (fun r => decide (r.cycle = some nc)) :=
    List.mem_of_mem_filter (hrows3 ▸ List.mem_cons_self row rest)
  have hE2 : ((cellRows table (target_cell product)).filter
      (fun r => decide (r.cycle = some nc))).isEmpty = false :=
    Bool.eq_false_iff.mpr
      (fun hT => List.ne_nil_of_mem hrowmem (List.isEmpty_iff.mp hT))
  have hcc2 : curveCore table (target_cell product) (pyInt nc) np =
      .ok (d, c, nc, np) := by
    simp only [curveCore, hE1, Bool.false_eq_true, if_false, hnc2, hE2,
      hnp2, hrows3, hd, hc]
  exact ⟨by rw [get_degradation_curve, h],
    by rw [get_degradation_curve, hcc2]⟩

theorem target_cell_GRID5015 : target_cell "GRID5015" = 314 := by
  rw [target_cell, if_neg (by decide)]

theorem cellRows_tblCycles : cellRows tblCycles 314 = [rowY365, rowY730] := by
  norm_num [cellRows, tblCycles, rowY365, rowY730, List.filter]

theorem candidateVals_tblCycles_cycle :
    candidateVals [rowY365, rowY730] DegRow.cycle = [365, 730] := by
  norm_num [candidateVals, uniqueFirstAux, rowY365, rowY730, List.filterMap]

theorem nearestVal_tblCycles_350 :
    nearestVal ((350 : ℤ) : ℚ) [365, 730] = some 365 := by
  have hcast : ((350 : ℤ) : ℚ) = 350 := by norm_num
  have habs1 : |(730 : ℚ) - 350| = 380 := by
    rw [abs_of_nonneg (by norm_num : (0 : ℚ) ≤ 730 - 350)]
    norm_num
  have habs2 : |(365 : ℚ) - 350| = 15 := by
    rw [abs_of_nonneg (by norm_num : (0 : ℚ) ≤ 365 - 350)]
    norm_num
  rw [hcast]
  simp only [nearestVal, List.foldl_cons, List.foldl_nil, nearStep,
    habs1, habs2]
  rw [if_neg (by norm_num)]

theorem filter_tblCycles_cycle365 :
    [rowY365, rowY730].filter (fun r => decide (r.cycle = some 365)) =
      [rowY365] := by
  norm_num [List.filter, rowY365, rowY730]

theorem candidateVals_rowY365_prate :
    candidateVals [rowY365] DegRow.prate = [1 / 2] := by
  norm_num [candidateVals, uniqueFirstAux, rowY365, List.filterMap]

theorem nearestVal_single_half :
    nearestVal (1 / 2) [1 / 2] = some (1 / 2) := by
  simp only [nearestVal, List.foldl_nil]

theorem filter_rowY365_prate :
    [rowY365].filter (fun r => decide (r.prate = some (1 / 2))) =
      [rowY365] := by
  norm_num [List.filter, rowY365]

theorem pyInt_365 : pyInt 365 = 365 := by
  rw [pyInt, if_neg (by norm_num)]
  norm_num [Int.floor_eq_iff]

theorem curveCore_tblCycles_350 :
    curveCore tblCycles (target_cell "GRID5015") 350 (1 / 2) =
      .ok (degsOfRow rowY365, cdsOfRow rowY365, 365, 1 / 2) := by
  simp only [curveCore, target_cell_GRID5015, cellRows_tblCycles,
    candidateVals_tblCycles_cycle, nearestVal_tblCycles_350,
    filter_tblCycles_cycle365, candidateVals_rowY365_prate,
    nearestVal_single_half, filter_rowY365_prate, List.isEmpty_cons,
    Bool.false_eq_true, if_false]

theorem nearest_match_selection_spec_witness :
    curveCore tblCycles (target_cell "GRID5015") 350 (1 / 2) =
      .ok (degsOfRow rowY365, cdsOfRow rowY365, 365, 1 / 2) ∧
    get_degradation_curve tblCycles "GRID5015" 350 (1 / 2) = .ok
      { degs := degsOfRow rowY365, cds := cdsOfRow rowY365,
        filterInfo :=
          { product := "GRID5015", targetCell := target_cell "GRID5015",
            inputCyclesPerYear := 350, matchedCycle := pyInt 365,
            inputDischargeRate := 1 / 2, matchedPrate := 1 / 2 } } ∧
    pyInt 365 = 365 :=
  ⟨curveCore_tblCycles_350,
   (nearest_match_selection_spec tblCycles "GRID5015" 350 (1 / 2)
     (degsOfRow rowY365) (cdsOfRow rowY365) 365 (1 / 2)
     curveCore_tblCycles_350).2.2,
   pyInt_365⟩

theorem requery_idempotent_witness :
    curveCore tblCycles (target_cell "GRID5015") 350 (1 / 2) =
      .ok (degsOfRow rowY365, cdsOfRow rowY365, 365, 1 / 2) ∧
    ((pyInt 365 : ℤ) : ℚ) = 365 ∧
    get_degradation_curve tblCycles "GRID5015" (pyInt 365) (1 / 2) = .ok
      { degs := degsOfRow rowY365, cds := cdsOfRow rowY365,
        filterInfo :=
          { product := "GRID5015", targetCell := target_cell "GRID5015",
            inputCyclesPerYear := pyInt 365, matchedCycle := pyInt 365,
            inputDischargeRate := 1 / 2, matchedPrate := 1 / 2 } } := by
  have hint : ((pyInt (365 : ℚ) : ℤ) : ℚ) = 365 := by
    rw [pyInt_365]
    norm_num
  exact ⟨curveCore_tblCycles_350, hint,
    (requery_idempotent_for_integral_matched_cycle tblCycles "GRID5015" 350
      (1 / 2) (degsOfRow rowY365) (cdsOfRow rowY365) 365 (1 / 2)
      curveCore_tblCycles_350 hint).2⟩

theorem no_rows_branches_unreachable_witness :
    (∃ r ∈ cellRows tblCycles (target_cell "GRID5015"),
      (DegRow.cycle r).isSome) ∧
    (∃ out, curveCore tblCycles (target_cell "GRID5015") 350 (1 / 2) =
      .ok out) := by
  have h1 : ∃ r ∈ cellRows tblCycles (target_cell "GRID5015"),
      (DegRow.cycle r).isSome := by
    refine ⟨rowY365, ?_, by simp [rowY365]⟩
    rw [target_cell_GRID5015, cellRows_tblCycles]
    exact List.mem_cons_self rowY365 [rowY730]
  have h2 : ∀ nc, nearestVal ((350 : ℤ) : ℚ)
      (candidateVals (cellRows tblCycles (target_cell "GRID5015"))
        DegRow.cycle) = some nc →
      ∃ r ∈ (cellRows tblCycles (target_cell "GRID5015")).filter
        (fun r => decide (r.cycle = some nc)), (DegRow.prate r).isSome := by
    intro nc hnc
    rw [target_cell_GRID5015, cellRows_tblCycles,
      candidateVals_tblCycles_cycle, nearestVal_tblCycles_350] at hnc
    injection hnc with hnc
    refine ⟨rowY365, ?_, by simp [rowY365]⟩
    rw [target_cell_GRID5015, cellRows_tblCycles, ← hnc,
      filter_tblCycles_cycle365]
    exact List.mem_cons_self rowY365 []
  exact ⟨h1,
    (no_rows_branches_unreachable tblCycles "GRID5015" 350 (1 / 2)).2.2 h1 h2⟩

theorem cellRows_tblTrunc :
    cellRows tblTrunc 314 = [rowHalfCycle, rowIntCycle] := by
  norm_num [cellRows, tblTrunc, rowHalfCycle, rowIntCycle, List.filter]

theorem candidateVals_tblTrunc_cycle :
    candidateVals [rowHalfCycle, rowIntCycle] DegRow.cycle = [7 / 2, 3] := by
  norm_num [candidateVals, uniqueFirstAux, rowHalfCycle, rowIntCycle,
    List.filterMap]

theorem nearestVal_tblTrunc_4 :
    nearestVal ((4 : ℤ) : ℚ) [7 / 2, 3] = some (7 / 2) := by
  have hcast : ((4 : ℤ) : ℚ) = 4 := by norm_num
  have habs1 : |(3 : ℚ) - 4| = 1 := by
    rw [abs_of_nonpos (by norm_num : (3 : ℚ) - 4 ≤ 0)]
    norm_num
  have habs2 : |(7 : ℚ) / 2 - 4| = 1 / 2 := by
    rw [abs_of_nonpos (by norm_num : (7 : ℚ) / 2 - 4 ≤ 0)]
    norm_num
  rw [hcast]
  simp only [nearestVal, List.foldl_cons, List.foldl_nil, nearStep,
    habs1, habs2]
  rw [if_neg (by norm_num)]

theorem nearestVal_tblTrunc_3 :
    nearestVal ((3 : ℤ) : ℚ) [7 / 2, 3] = some 3 := by
  have hcast : ((3 : ℤ) : ℚ) = 3 := by norm_num
  have habs1 : |(3 : ℚ) - 3| = 0 := by norm_num
  have habs2 : |(7 : ℚ) / 2 - 3| = 1 / 2 := by
    rw [abs_of_nonneg (by norm_num : (0 : ℚ) ≤ 7 / 2 - 3)]
    norm_num
  rw [hcast]
  simp only [nearestVal, List.foldl_cons, List.foldl_nil, nearStep,
    habs1, habs2]
  rw [if_pos (by norm_num)]

theorem filter_tblTrunc_half :
    [rowHalfCycle, rowIntCycle].filter
      (fun r => decide (r.cycle = some (7 / 2))) = [rowHalfCycle] := by
  norm_num [List.filter, rowHalfCycle, rowIntCycle]

theorem filter_tblTrunc_three :
    [rowHalfCycle, rowIntCycle].filter
      (fun r => decide (r.cycle = some 3)) = [rowIntCycle] := by
  norm_num [List.filter, rowHalfCycle, rowIntCycle]

theorem candidateVals_rowHalfCycle_prate :
    candidateVals [rowHalfCycle] DegRow.prate = [1 / 2] := by
  norm_num [candidateVals, uniqueFirstAux, rowHalfCycle, List.filterMap]

theorem candidateVals_rowIntCycle_prate :
    candidateVals [rowIntCycle] DegRow.prate = [1 / 2] := by
  norm_num [candidateVals, uniqueFirstAux, rowIntCycle, List.filterMap]

theorem filter_rowHalfCycle_prate :
    [rowHalfCycle].filter (fun r => decide (r.prate = some (1 / 2))) =
      [rowHalfCycle] := by
  norm_num [List.filter, rowHalfCycle]

theorem filter_rowIntCycle_prate :
    [rowIntCycle].filter (fun r => decide (r.prate = some (1 / 2))) =
      [rowIntCycle] := by
  norm_num [List.filter, rowIntCycle]

theorem pyInt_seven_halves : pyInt (7 / 2) = 3 := by
  rw [pyInt, if_neg (by norm_num)]
  norm_num [Int.floor_eq_iff]

theorem pyInt_three : pyInt 3 = 3 := by
  rw [pyInt, if_neg (by norm_num)]
  norm_num [Int.floor_eq_iff]

/-- C8 counterexample: on a table tabulated at cycle values 3.5 and 3, the
query (cycles=4, rate=0.5) matches the row at 3.5 but reports
`matched_cycle = int(3.5) = 3`; re-querying with the reported values
(cycles=3, rate=0.5) selects the row tabulated at 3 instead, whose curve
data differs.  The claimed idempotence fails at this concrete input. -/
theorem requery_idempotence_counterexample :
    get_degradation_curve tblTrunc "GRID5015" 4 (1 / 2) = .ok
      { degs := degsOfRow rowHalfCycle, cds := cdsOfRow rowHalfCycle,
        filterInfo :=
          { product := "GRID5015", targetCell := 314,
            inputCyclesPerYear := 4, matchedCycle := 3,
            inputDischargeRate := 1 / 2, matchedPrate := 1 / 2 } } ∧
    get_degradation_curve tblTrunc "GRID5015" 3 (1 / 2) = .ok
      { degs := degsOfRow rowIntCycle, cds := cdsOfRow rowIntCycle,
        filterInfo :=
          { product := "GRID5015", targetCell := 314,
            inputCyclesPerYear := 3, matchedCycle := 3,
            inputDischargeRate := 1 / 2, matchedPrate := 1 / 2 } } ∧
    degsOfRow rowHalfCycle ≠ degsOfRow rowIntCycle := by
  have hcc1 : curveCore tblTrunc (target_cell "GRID5015") 4 (1 / 2) =
      .ok (degsOfRow rowHalfCycle, cdsOfRow rowHalfCycle, 7 / 2, 1 / 2) := by
    simp only [curveCore, target_cell_GRID5015, cellRows_tblTrunc,
      candidateVals_tblTrunc_cycle, nearestVal_tblTrunc_4,
      filter_tblTrunc_half, candidateVals_rowHalfCycle_prate,
      nearestVal_single_half, filter_rowHalfCycle_prate, List.isEmpty_cons,
      Bool.false_eq_true, if_false]
  have hcc2 : curveCore tblTrunc (target_cell "GRID5015") 3 (1 / 2) =
      .ok (degsOfRow rowIntCycle, cdsOfRow rowIntCycle, 3, 1 / 2) := by
    simp only [curveCore, target_cell_GRID5015, cellRows_tblTrunc,
      candidateVals_tblTrunc_cycle, nearestVal_tblTrunc_3,
      filter_tblTrunc_three, candidateVals_rowIntCycle_prate,
      nearestVal_single_half, filter_rowIntCycle_prate, List.isEmpty_cons,
      Bool.false_eq_true, if_false]
  have hd1 : (degsOfRow rowHalfCycle).getD 0 none = some 1 := by
    rw [degsOfRow, range_map_getD 21 _ none 0 (by norm_num)]
    simp [rowHalfCycle]
  have hd2 : (degsOfRow rowIntCycle).getD 0 none = some 2 := by
    rw [degsOfRow, range_map_getD 21 _ none 0 (by norm_num)]
    simp [rowIntCycle]
  rw [target_cell_GRID5015] at hcc1 hcc2
  refine ⟨?_, ?_, ?_⟩
  · simp only [get_degradation_curve, target_cell_GRID5015, hcc1,
      pyInt_seven_halves]
  · simp only [get_degradation_curve, target_cell_GRID5015, hcc2, pyInt_three]
  · intro h
    rw [h, hd2] at hd1
    injection hd1 with hd1
    norm_num at hd1

theorem nearestVal_nil (t : ℚ) : nearestVal t [] = none := rfl

theorem cellRows_tblMixedNull :
    cellRows tblMixedNull 314 = [rowNullPrate, rowFullRow] := by
  norm_num [cellRows, tblMixedNull, rowNullPrate, rowFullRow, List.filter]

theorem candidateVals_tblMixedNull_cycle :
    candidateVals [rowNullPrate, rowFullRow] DegRow.cycle = [365, 400] := by
  norm_num [candidateVals, uniqueFirstAux, rowNullPrate, rowFullRow,
    List.filterMap]

theorem nearestVal_tblMixedNull_365 :
    nearestVal ((365 : ℤ) : ℚ) [365, 400] = some 365 := by
  have hcast : ((365 : ℤ) : ℚ) = 365 := by norm_num
  have habs1 : |(400 : ℚ) - 365| = 35 := by
    rw [abs_of_nonneg (by norm_num : (0 : ℚ) ≤ 400 - 365)]
    norm_num
  have habs2 : |(365 : ℚ) - 365| = 0 := by norm_num
  rw [hcast]
  simp only [nearestVal, List.foldl_cons, List.foldl_nil, nearStep,
    habs1, habs2]
  rw [if_neg (by norm_num)]

theorem filter_tblMixedNull_365 :
    [rowNullPrate, rowFullRow].filter
      (fun r => decide (r.cycle = some 365)) = [rowNullPrate] := by
  norm_num [List.filter, rowNullPrate, rowFullRow]

theorem candidateVals_rowNullPrate_prate :
    candidateVals [rowNullPrate] DegRow.prate = [] := by
  norm_num [candidateVals, uniqueFirstAux, rowNullPrate, List.filterMap]

/-- C9 counterexample: a table whose cell filter keeps two rows, one of
which has both cycle and P-rate non-null (the claim's precondition), still
makes the lookup raise: the nearest cycle (365) matches only the row whose
P-rate is NaN, so the P-rate candidate list is empty and Python's `min`
raises — the lookup fails even though the cell filter was nonempty. -/
theorem no_rows_branch_counterexample :
    cellRows tblMixedNull (target_cell "GRID5015") ≠ [] ∧
    (∃ r ∈ cellRows tblMixedNull (target_cell "GRID5015"),
      (DegRow.cycle r).isSome ∧ (DegRow.prate r).isSome) ∧
    get_degradation_curve tblMixedNull "GRID5015" 365 (1 / 2) =
      .error .emptyPrateCandidates := by
  refine ⟨?_, ?_, ?_⟩
  · rw [target_cell_GRID5015, cellRows_tblMixedNull]
    exact List.cons_ne_nil _ _
  · refine ⟨rowFullRow, ?_, by simp [rowFullRow], by simp [rowFullRow]⟩
    rw [target_cell_GRID5015, cellRows_tblMixedNull]
    exact List.mem_cons_of_mem _ (List.mem_cons_self _ _)
  · have hcc : curveCore tblMixedNull (target_cell "GRID5015") 365 (1 / 2) =
        .error .emptyPrateCandidates := by
      simp only [curveCore, target_cell_GRID5015, cellRows_tblMixedNull,
        candidateVals_tblMixedNull_cycle, nearestVal_tblMixedNull_365,
        filter_tblMixedNull_365, candidateVals_rowNullPrate_prate,
        nearestVal_nil, List.isEmpty_cons, Bool.false_eq_true, if_false]
    simp only [get_degradation_curve, hcc]
